import Mathlib

/-!
Verification development for the order emergency-classification pipeline
(`model/order_classification/order_classification_model.py`).

Strings are modelled as `List Char` (Python `str` is a sequence of code
points); `String`-level wrappers are provided where the pipeline passes
`str` values around.  Python's whitespace class `\s` / `str.strip()` is
modelled by the six ASCII whitespace characters, and `str.lower()` by
ASCII plus Cyrillic lowercasing, which covers every alphabet occurring in
this code base.
-/

/-- Whitespace test modelling Python's `\s` class and `str.isspace` on the
ASCII range: space, tab, newline, carriage return, vertical tab, form feed. -/
def isWs (c : Char) : Bool :=
  (c == ' ') || (c == '\t') || (c == '\n') || (c == '\r') || (c == '\x0b') || (c == '\x0c')

/-- Python `str.lower` on a single character, for the ASCII and Cyrillic
alphabets: `А`..`Я` map to `а`..`я`, `Ё` to `ё`, ASCII via `Char.toLower`. -/
def pyCharLower (c : Char) : Char :=
  if 0x410 ≤ c.toNat ∧ c.toNat ≤ 0x42F then Char.ofNat (c.toNat + 0x20)
  else if c.toNat = 0x401 then Char.ofNat 0x451
  else c.toLower

/-- Python `str.lower` over a whole string. -/
def pyLower (s : List Char) : List Char := s.map pyCharLower

/-- Python `str.strip()`: drop leading and trailing whitespace. -/
def pyStrip (s : List Char) : List Char :=
  ((s.dropWhile isWs).reverse.dropWhile isWs).reverse

/-- Python's substring containment `pat in s` (`True` for the empty pattern). -/
def listInfixB (pat : List Char) : List Char → Bool
  | [] => pat.isEmpty
  | c :: rest => pat.isPrefixOf (c :: rest) || listInfixB pat rest

/-- Step (a) of `_normalize_resident_request_string`:
`query.replace("\n", " ")`. -/
def mapNl (s : List Char) : List Char :=
  s.map (fun c => if c = '\n' then ' ' else c)

/-- Fuelled worker for Python `str.replace(pat, rep)`: leftmost,
non-overlapping replacement.  Fuel at least the length of the text makes the
fuel bound unreachable for a non-empty pattern. -/
def replaceAllF (pat rep : List Char) : Nat → List Char → List Char
  | 0, s => s
  | Nat.succ _, [] => []
  | Nat.succ n, c :: rest =>
    if pat.isPrefixOf (c :: rest) then rep ++ replaceAllF pat rep n ((c :: rest).drop pat.length)
    else c :: replaceAllF pat rep n rest

/-- Python `s.replace(pat, rep)` for a non-empty `pat`. -/
def replaceAll (pat rep s : List Char) : List Char := replaceAllF pat rep s.length s

/-- Does the regex `http\S+` match at the head of the text: literal `http`
followed by at least one non-whitespace character. -/
def startsHttp : List Char → Bool
  | c0 :: c1 :: c2 :: c3 :: c4 :: _ =>
    (c0 == 'h') && (c1 == 't') && (c2 == 't') && (c3 == 'p') && !(isWs c4)
  | _ => false

/-- Step (c) of the normalizer: `re.sub(r"http\S+", " ", s)`.  Scans left to
right; on a match the whole maximal non-whitespace run from the `h` onward is
the match (greedy `\S+`), replaced by one space; scanning resumes after it.
The `Bool` flag is true while skipping the remainder of a matched run. -/
def subHttpAux : Bool → List Char → List Char
  | _, [] => []
  | true, c :: rest => if isWs c then c :: subHttpAux false rest else subHttpAux true rest
  | false, c :: rest =>
    if startsHttp (c :: rest) then ' ' :: subHttpAux true rest
    else c :: subHttpAux false rest

/-- `re.sub(r"http\S+", " ", s)`. -/
def subHttp (s : List Char) : List Char := subHttpAux false s

/-- Step (d) worker: `re.sub(r"\s+", " ", s)`.  The flag is true while inside
a whitespace run whose first character has already been emitted as `' '`. -/
def collapseWsAux : Bool → List Char → List Char
  | _, [] => []
  | inRun, c :: rest =>
    if isWs c then
      if inRun then collapseWsAux true rest else ' ' :: collapseWsAux true rest
    else c :: collapseWsAux false rest

/-- `re.sub(r"\s+", " ", s)`: every maximal whitespace run becomes one space. -/
def collapseWs (s : List Char) : List Char := collapseWsAux false s

/-- The fixed photo-attachment placeholder phrase removed by the normalizer. -/
def PHRASE : List Char := ("Прикрепите фото:").toList

/-- `_normalize_resident_request_string` on the `List Char` model: collapse
line breaks to spaces, strip the photo placeholder phrase, strip URL-shaped
tokens, collapse whitespace runs to a single space. -/
def normalizeL (q : List Char) : List Char :=
  collapseWs (subHttp (replaceAll PHRASE ([' ']) (mapNl q)))

/-- `_normalize_resident_request_string` (`String` wrapper). -/
def normalizeStr (query : String) : String :=
  (normalizeL query.toList).asString

/-!
## Responsible-party resolver

`_get_responsible_users_ids_by_order_address` scans the configured list of
responsible units (`RESPONSIBLE_UDS_LIST`); the list itself comes from
`infra/vysota_uds_list.py`, configuration data outside the pipeline module,
so the resolver is parameterised by it here.  `UDS` is modelled from the
spec (`uds_scheme.py` is not part of the pipeline module): a unit id plus
its list of address substrings; the source's `int(uds_data.user_id)`
conversion is folded into the `Nat`-typed field.
-/

/-- A responsible unit: user id and the address substrings it covers. -/
structure UDS where
  user_id : Nat
  address_list : List String
  deriving DecidableEq

/-- Python `uds_address.lower() in order_address.lower()`. -/
def pyContainsCI (hay needle : String) : Bool :=
  listInfixB (pyLower needle.toList) (pyLower hay.toList)

/-- `_get_responsible_users_ids_by_order_address`: first unit (in configured
order) one of whose address substrings is contained case-insensitively in the
order address; `none` when no unit matches. -/
def _get_responsible_users_ids_by_order_address (udsList : List UDS) (order_address : String) :
    Option (List Nat) :=
  match udsList with
  | [] => none
  | uds :: rest =>
    match uds.address_list.find? (fun a => pyContainsCI order_address a) with
    | some _ => some ([uds.user_id])
    | none => _get_responsible_users_ids_by_order_address rest order_address

/-!
## Classification engine

`_get_order_emergency` runs the LLM chain; on `RateLimitError` it sleeps
`WAIT_TIME_IN_SEC` seconds and retries the identical call, with no bound on
the number of attempts; any other exception propagates.  A single run's
classifier behaviour is modelled as the number of leading rate-limit
signals followed by a final outcome (a label, or an error that propagates).
-/

/-- Timeout for a rate-limit (TPM) signal, in seconds. -/
def WAIT_TIME_IN_SEC : Nat := 60

deriving instance DecidableEq for Except

/-- Upstream classifier behaviour for one pipeline run: how many rate-limit
signals precede the final outcome, and that outcome (`.ok label` or a
propagating exception rendered as its message). -/
structure ClassifierBehavior where
  rateLimitCount : Nat
  finalOutcome : Except String String
  deriving DecidableEq

/-- Retry loop of `_get_order_emergency`: returns the final outcome and the
total seconds slept across rate-limit retries. -/
def getOrderEmergencyRun : Nat → Except String String → Except String String × Nat
  | 0, fin => (fin, 0)
  | Nat.succ n, fin =>
    let rest := getOrderEmergencyRun n fin
    (rest.1, WAIT_TIME_IN_SEC + rest.2)

/-- `_get_order_emergency`: outcome of the (possibly retried) chain call,
paired with the seconds spent sleeping on rate limits. -/
def _get_order_emergency (beh : ClassifierBehavior) : Except String String × Nat :=
  getOrderEmergencyRun beh.rateLimitCount beh.finalOutcome

/-!
## Data model of the pipeline

Scheme modules (`order_classification_scheme.py`,
`order_classification_history_scheme.py`) and the config repository are not
part of the pipeline module; their shapes are modelled from the spec, keeping
exactly the fields the pipeline reads or writes.  Enumeration values are
compared only for equality, so their concrete numbers are arbitrary.
-/

/-- Modelled from the spec: `OrderStatusID.PENDING`. -/
def ORDER_STATUS_PENDING : Nat := 1

/-- Modelled from the spec: `OrderStatusID.IN_PROGRESS` ("В работе"). -/
def ORDER_STATUS_IN_PROGRESS : Nat := 2

/-- Modelled from the spec: `AlertTypeID.NEW_ORDER`. -/
def ALERT_TYPE_NEW_ORDER : Nat := 1

/-- Modelled from the spec: `SummaryType.TEXT`. -/
def SUMMARY_TYPE_TEXT : Nat := 1

/-- Modelled from the spec: `SummaryTitle.COMMENT`. -/
def SUMMARY_TITLE_COMMENT : String := "Комментарий"

/-- Modelled from the spec: `SummaryTitle.OBJECT`. -/
def SUMMARY_TITLE_OBJECT : String := "Объект"

/-- Modelled from the spec: `DEFAULT_CONFIG_USER_ID` of the config repository. -/
def DEFAULT_CONFIG_USER_ID : Nat := 1

/-- "Администрация" department id. -/
def RESPONSIBLE_DEPT_ID : Nat := 38

/-- DataStep AI user id, set as order inspector. -/
def AI_USER_ID : Nat := 15698

/-- Message posted to the internal chat for AI-processed orders. -/
def ORDER_PROCESSED_BY_AI_MESSAGE : String := "ИИ классифицировал эту заявку как аварийную"

/-- One entry of `order_details.service.orderForm`. -/
structure OrderFormItem where
  type : Nat
  title : String
  value : String
  deriving DecidableEq

/-- One entry of `order_details.order.summary`. -/
structure SummaryItem where
  title : String
  value : String
  deriving DecidableEq

/-- The slice of `OrderDetails` the pipeline reads. -/
structure OrderDetails where
  orderForm : List OrderFormItem
  summary : List SummaryItem
  deriving DecidableEq

/-- Per-tenant classification config (modelled from the spec: the config
repository is an external collaborator). -/
structure OrderClassificationConfig where
  user_id : Nat
  is_use_emergency_classification : Bool
  is_use_order_updating : Bool
  emergency_prompt : String
  deriving DecidableEq

/-- The inbound webhook payload fields the pipeline reads
(`body.alertId`, `body.alertTypeId`, `body.timestamp`, `body.data.orderId`,
`body.data.orderStatusId`). -/
structure OrderClassificationRequest where
  alertId : Nat
  alertTypeId : Nat
  timestamp : Nat
  orderId : Nat
  orderStatusId : Nat
  deriving DecidableEq

/-- Payload recorded in `order_update_request` / `order_update_response`. -/
inductive UpdatePayload where
  /-- The `req_body` built by `_update_order_status_details`. -/
  | statusUpdateRequest (responsibleDeptId orderStatusId : Nat)
      (responsibleUserIds inspectorIds : List Nat)
  /-- The dict with key `result` holding the skipped-by-config message. -/
  | skipped (result : String)
  /-- Opaque response data returned by the order-management system. -/
  | upstream (data : String)
  deriving DecidableEq

/-- The audit record (`OrderClassificationRecord`), with the fields the
pipeline initialises and incrementally fills; unset fields are `none`. -/
structure OrderClassificationRecord where
  alert_id : Nat
  alert_type_id : Nat
  alert_timestamp : Nat
  order_id : Nat
  order_status_id : Nat
  order_details : Option OrderDetails := none
  order_query : Option String := none
  order_normalized_query : Option String := none
  order_address : Option String := none
  order_emergency : Option String := none
  is_emergency : Option Bool := none
  uds_id : Option String := none
  order_update_request : Option UpdatePayload := none
  order_update_response : Option UpdatePayload := none
  is_error : Bool := false
  comment : Option String := none
  deriving DecidableEq

/-- What the idempotency lookup returns about an existing record (only its
id is read, for the conflict message). -/
structure SavedRecordInfo where
  id : Nat
  deriving DecidableEq

/-- The external world, as one pipeline run observes it: result of the
history-store lookup, the tenant config, the order-details fetch (an
`HTTPException` detail on a non-2xx response), the classifier behaviour,
the configured responsible-unit list, and the outcomes of the two dispatch
calls (status update and chat post). -/
structure Env where
  savedRecord : Option SavedRecordInfo
  config : Option OrderClassificationConfig
  orderDetailsResult : Except String OrderDetails
  classifier : ClassifierBehavior
  udsList : List UDS
  updateStatusResult : Except String String
  chatResult : Except String String
  deriving DecidableEq

/-- External calls observable during a run, in order. -/
inductive ExtCall where
  | getSavedRecord (orderId : Nat)
  | getConfig
  | getOrderDetails (orderId : Nat)
  | classifierInvoke (query : String)
  | updateOrderStatus (orderId : Nat)
  | postChatMessage (orderId : Nat)
  | saveRecord (orderId : Nat)
  deriving DecidableEq


/-!
## Exception messages (the `detail` strings of the raised `HTTPException`s)
-/

/-- 409 detail: order already classified. -/
def conflictMsg (oid rid : Nat) : String :=
  ("Order with ID " ++ toString oid ++ " was already classified, history record ID "
    ++ toString rid)

/-- 400 detail: wrong order status. -/
def statusGateMsg (oid sid : Nat) : String :=
  ("Order with ID " ++ toString oid ++ " has status ID " ++ toString sid
    ++ ", but status ID " ++ toString ORDER_STATUS_PENDING ++ " required")

/-- 500 detail: default config missing. -/
def configMissingMsg (client : String) : String :=
  ("Default order classification config (for user with ID "
    ++ toString DEFAULT_CONFIG_USER_ID ++ " and client " ++ client ++ ") not found")

/-- 400 detail: wrong alert type. -/
def alertTypeMsg (oid aid : Nat) : String :=
  ("Order with ID " ++ toString oid ++ " has alert type ID " ++ toString aid
    ++ ", but status ID " ++ toString ALERT_TYPE_NEW_ORDER ++ " required")

/-- 422 detail: missing or blank resident comment. -/
def noCommentMsg (oid : Nat) : String :=
  ("Order with ID " ++ toString oid ++ " has no comment, cannot classify emergency")

/-- 422 detail: missing or blank order address. -/
def noAddressMsg (oid : Nat) : String :=
  ("Order with ID " ++ toString oid ++ " has no address, cannot find responsible UDS")

/-- 501 detail: no responsible unit covers the address. -/
def noUdsMsg (oid : Nat) (addr : String) : String :=
  ("Cannot find responsible UDS for order with ID " ++ toString oid
    ++ " and address \x27" ++ addr ++ "\x27")

/-- Marker written into fields disabled by the tenant config. -/
def disabledFieldMsg (uid : Nat) : String :=
  ("skipped by emergency classification config of user with ID " ++ toString uid)

/-!
## The orchestrator `get_emergency_class`

The `try` block is modelled stage by stage; each stage returns the record
built so far, `some detail` when an exception was raised (else `none`), and
the list of external calls made.  The `except` handler and the final
unconditional `save_order_classification_record` call are applied on top.
-/

/-- Result of the `try` block: record so far, raised-exception detail (if
any), and the external calls made. -/
abbrev PipeOut := OrderClassificationRecord × Option String × List ExtCall

/-- Resident-comment extraction: last order-form field of type `TEXT` titled
`COMMENT` wins (loop-overwrite semantics of the source). -/
def extractQuery (od : OrderDetails) : Option String :=
  od.orderForm.foldl
    (fun acc f =>
      if f.type = SUMMARY_TYPE_TEXT ∧ f.title = SUMMARY_TITLE_COMMENT then some f.value else acc)
    none

/-- Address extraction: last summary field titled `OBJECT` wins. -/
def extractAddress (od : OrderDetails) : Option String :=
  od.summary.foldl
    (fun acc s => if s.title = SUMMARY_TITLE_OBJECT then some s.value else acc)
    none

/-- `not is_order_query_exists or is_order_query_empty`: the value is missing
or strips to the empty string. -/
def isMissingOrBlank : Option String → Bool
  | none => true
  | some s => (pyStrip s.toList).isEmpty

/-- `order_emergency.lower().strip() == "аварийная"`. -/
def pyIsAffirmative (label : String) : Bool :=
  pyStrip (pyLower label.toList) == ("аварийная").toList

/-- Python `str(responsible_users_ids)` for `list[int] | None`. -/
def pyStrOptIntList : Option (List Nat) → String
  | none => "None"
  | some l => "[" ++ String.intercalate (", ") (l.map toString) ++ "]"

/-- Dispatch stage (reached when classification is enabled and the order was
classified as emergency): resolve the responsible unit, record it, then
either perform the status update and the chat post, or record the
skipped-by-config markers. -/
def stageDispatch (env : Env) (body : OrderClassificationRequest)
    (useUpdating : Bool) (disabledMsg : String) (order_address : String)
    (record : OrderClassificationRecord) (calls : List ExtCall) : PipeOut :=
  let rids := _get_responsible_users_ids_by_order_address env.udsList order_address
  let record := { record with uds_id := some (pyStrOptIntList rids) }
  match rids with
  | none => (record, some (noUdsMsg body.orderId order_address), calls)
  | some ids =>
    if useUpdating then
      match env.updateStatusResult with
      | Except.error e => (record, some e, calls ++ [ExtCall.updateOrderStatus body.orderId])
      | Except.ok resp =>
        match env.chatResult with
        | Except.error e =>
          (record, some e,
            calls ++ [ExtCall.updateOrderStatus body.orderId, ExtCall.postChatMessage body.orderId])
        | Except.ok _ =>
          ({ record with
              order_update_request := some (UpdatePayload.statusUpdateRequest
                RESPONSIBLE_DEPT_ID ORDER_STATUS_IN_PROGRESS ids ([AI_USER_ID])),
              order_update_response := some (UpdatePayload.upstream resp) },
            none,
            calls ++ [ExtCall.updateOrderStatus body.orderId, ExtCall.postChatMessage body.orderId])
    else
      ({ record with
          order_update_request := some (UpdatePayload.skipped disabledMsg),
          order_update_response := some (UpdatePayload.skipped disabledMsg) },
        none, calls)

/-- Classification stage: when enabled, normalize the comment, invoke the
classifier (with rate-limit retries), derive `is_emergency`, and dispatch if
affirmative; when disabled, record the skipped-by-config marker and leave
`is_emergency` unset.  The `getD` defaults are unreachable: the blank-field
gates have already raised when the comment or address is absent. -/
def stageClassify (env : Env) (body : OrderClassificationRequest)
    (useClassification useUpdating : Bool) (disabledMsg : String)
    (order_query order_address : Option String)
    (record : OrderClassificationRecord) (calls : List ExtCall) : PipeOut :=
  if useClassification then
    let normalized := normalizeStr (order_query.getD (""))
    let record := { record with order_normalized_query := some normalized }
    let calls := calls ++ [ExtCall.classifierInvoke normalized]
    match (_get_order_emergency env.classifier).1 with
    | Except.error e => (record, some e, calls)
    | Except.ok label =>
      let record := { record with order_emergency := some label }
      let is_em := pyIsAffirmative label
      let record := { record with is_emergency := some is_em }
      if is_em then
        stageDispatch env body useUpdating disabledMsg (order_address.getD ("")) record calls
      else (record, none, calls)
  else
    ({ record with order_emergency := some disabledMsg }, none, calls)

/-- Stage after a successful order-details fetch: record the details, extract
and record the comment and the address, run the blank-field gates (only when
classification is enabled), then classify. -/
def stageAfterDetails (env : Env) (body : OrderClassificationRequest)
    (useClassification useUpdating : Bool) (disabledMsg : String) (od : OrderDetails)
    (record : OrderClassificationRecord) (calls : List ExtCall) : PipeOut :=
  let record := { record with order_details := some od }
  let order_query := extractQuery od
  let record := { record with order_query := order_query }
  if useClassification && isMissingOrBlank order_query then
    (record, some (noCommentMsg body.orderId), calls)
  else
    let order_address := extractAddress od
    let record := { record with order_address := order_address }
    if useClassification && isMissingOrBlank order_address then
      (record, some (noAddressMsg body.orderId), calls)
    else
      stageClassify env body useClassification useUpdating disabledMsg
        order_query order_address record calls

/-- Stage once the tenant config is loaded: compute the toggles, run the
alert-type gate (only when classification is enabled), fetch order details. -/
def stageWithConfig (env : Env) (body : OrderClassificationRequest) (_client : String)
    (cfg : OrderClassificationConfig)
    (record : OrderClassificationRecord) (calls : List ExtCall) : PipeOut :=
  let useClassification := cfg.is_use_emergency_classification
  let useUpdating := cfg.is_use_order_updating && useClassification
  let disabledMsg := disabledFieldMsg cfg.user_id
  if useClassification && (body.alertTypeId != ALERT_TYPE_NEW_ORDER) then
    (record, some (alertTypeMsg body.orderId body.alertTypeId), calls)
  else
    let calls := calls ++ [ExtCall.getOrderDetails body.orderId]
    match env.orderDetailsResult with
    | Except.error e => (record, some e, calls)
    | Except.ok od =>
      stageAfterDetails env body useClassification useUpdating disabledMsg od record calls

/-- The whole `try` block of `get_emergency_class`: initialise the record,
run the idempotency gate, the status gate, load the config, and continue. -/
def classifyBody (env : Env) (body : OrderClassificationRequest) (client : String) : PipeOut :=
  let record : OrderClassificationRecord :=
    { alert_id := body.alertId, alert_type_id := body.alertTypeId,
      alert_timestamp := body.timestamp, order_id := body.orderId,
      order_status_id := body.orderStatusId }
  let calls : List ExtCall := [ExtCall.getSavedRecord body.orderId]
  match env.savedRecord with
  | some saved => (record, some (conflictMsg body.orderId saved.id), calls)
  | none =>
    if body.orderStatusId != ORDER_STATUS_PENDING then
      (record, some (statusGateMsg body.orderId body.orderStatusId), calls)
    else
      let calls := calls ++ [ExtCall.getConfig]
      match env.config with
      | none => (record, some (configMissingMsg client), calls)
      | some cfg => stageWithConfig env body client cfg record calls

/-- `get_emergency_class`: run the `try` block; on any raised exception set
`is_error` and copy the exception detail into `comment`; then persist the
record via the history store's save (always, exactly once) and return it. -/
def get_emergency_class (env : Env) (body : OrderClassificationRequest) (client : String) :
    OrderClassificationRecord × List ExtCall :=
  let res := classifyBody env body client
  let record :=
    match res.2.1 with
    | some msg => { res.1 with is_error := true, comment := some msg }
    | none => res.1
  (record, res.2.2 ++ [ExtCall.saveRecord body.orderId])

/-!
## History store

The store implementation (`order_classification_history_model.py`) is not
part of the pipeline module.  Modelled from the spec: the store keeps one
entry per save; `findByOrderId(orderId, tenant)` returns the first entry for
that pair; `save(record, tenant)` is always called exactly once per run, at
the end, and writes the finished record (entry ids are assigned
sequentially, like an autoincrement key).
-/

/-- One durable history-store entry. -/
structure StoreEntry where
  order_id : Nat
  client : String
  entry_id : Nat
  record : OrderClassificationRecord
  deriving DecidableEq

/-- Modelled from the spec: `findByOrderId(orderId, tenant) -> record | absent`
(the history store lookup `get_saved_record_by_order_id`). -/
def findByOrderId (store : List StoreEntry) (oid : Nat) (client : String) : Option StoreEntry :=
  store.find? (fun e => e.order_id == oid && e.client == client)

/-- Modelled from the spec: `save(record, tenant)` of the history store
(`save_order_classification_record`), writing one record per run. -/
def saveToStore (store : List StoreEntry) (oid : Nat) (client : String)
    (r : OrderClassificationRecord) : List StoreEntry :=
  store ++ [⟨oid, client, store.length, r⟩]

/-- A full `classify` call against an explicit store state: the idempotency
lookup feeds the orchestrator, and the final record is saved. -/
def classifyWithStore (env : Env) (body : OrderClassificationRequest) (client : String)
    (store : List StoreEntry) : OrderClassificationRecord × List StoreEntry × List ExtCall :=
  let envS := { env with
    savedRecord := (findByOrderId store body.orderId client).map (fun e => ⟨e.entry_id⟩) }
  let res := get_emergency_class envS body client
  (res.1, saveToStore store body.orderId client res.1, res.2)

/-!
## Auxiliary definitions and concrete fixtures
-/

/-- A unit matches an address when some of its address substrings is
contained case-insensitively in it. -/
def udsMatches (order_address : String) (u : UDS) : Bool :=
  u.address_list.any (fun a => pyContainsCI order_address a)

/-- Concrete order details for witnesses: one TEXT/COMMENT form field and one
OBJECT summary field. -/
def odW : OrderDetails :=
  ⟨[⟨SUMMARY_TYPE_TEXT, SUMMARY_TITLE_COMMENT, "Труба течет, срочно!"⟩],
    [⟨SUMMARY_TITLE_OBJECT, "ул. Ленина 5"⟩]⟩

/-- Concrete request for witnesses: order 42, pending, new-order alert. -/
def bodyW : OrderClassificationRequest := ⟨100, ALERT_TYPE_NEW_ORDER, 123, 42, ORDER_STATUS_PENDING⟩

/-- Concrete happy-path environment for witnesses. -/
def envW : Env :=
  ⟨none, some ⟨7, true, true, "prompt"⟩, Except.ok odW, ⟨0, Except.ok ("аварийная")⟩,
    [⟨7, ["ленина"]⟩], Except.ok ("resp"), Except.ok ("chat")⟩

/-- Counterexample environment for C8: classification disabled, but the
order-details fetch fails. -/
def envC8 : Env :=
  { envW with
    orderDetailsResult := Except.error ("upstream outage")
    config := some ⟨7, false, true, "p"⟩ }

/-- Is an external call an invocation of the classifier? -/
def isClassifierCall : ExtCall → Bool
  | ExtCall.classifierInvoke _ => true
  | _ => false

/-- A pre-existing history record for order 42 and tenant "vysota". -/
def recW : OrderClassificationRecord :=
  { alert_id := 100, alert_type_id := 1, alert_timestamp := 123, order_id := 42,
    order_status_id := 1 }

/-- A store already holding a record for (42, "vysota"). -/
def storeC1 : List StoreEntry := [⟨42, "vysota", 0, recW⟩]

/-- Does `http\S+` match anywhere in the text? -/
def hasHttpMatch : List Char → Bool
  | [] => false
  | c :: rest => startsHttp (c :: rest) || hasHttpMatch rest

/-- Output-to-input comparison used for the URL-sub and whitespace-collapse
invariants: the output agrees with the input until (possibly) a whitespace
character, after which we do not care. -/
inductive WsLe : List Char → List Char → Prop where
  | nil : WsLe [] []
  | cons (c : Char) {o i : List Char} : WsLe o i → WsLe (c :: o) (c :: i)
  | ws {c : Char} {o : List Char} (i : List Char) : isWs c = true → WsLe (c :: o) i

/-!
## Theorems
-/

/-- The retry loop's outcome is the final outcome, whatever the number of
leading rate-limit signals. -/
theorem getOrderEmergencyRun_fst (n : Nat) (fin : Except String String) :
    (getOrderEmergencyRun n fin).1 = fin := by
  induction n with
  | zero => rfl
  | succ n ih => simpa [getOrderEmergencyRun] using ih

/-- Total sleep time of the retry loop. -/
theorem getOrderEmergencyRun_snd (n : Nat) (fin : Except String String) :
    (getOrderEmergencyRun n fin).2 = WAIT_TIME_IN_SEC * n := by
  induction n with
  | zero => rfl
  | succ n ih => simp [getOrderEmergencyRun, ih, Nat.mul_succ, Nat.add_comm]

/-- `find?` succeeds exactly when `any` holds. -/
theorem find?_isSome_eq_any {α : Type} (p : α → Bool) (l : List α) :
    (l.find? p).isSome = l.any p := by
  induction l with
  | nil => rfl
  | cons a t ih =>
    by_cases h : p a = true <;> simp [List.find?, h, ih]

/-- Claim C4: on rate-limit signals the classification engine sleeps a fixed
60-second interval per signal and retries the identical call without an
attempt bound; any other failure propagates with no retry; and after any
number of rate-limit retries, both the engine's outcome and the entire
history record produced by the orchestrator are identical to a run with no
rate limiting. -/
theorem claim_C4 (n : Nat) (fin : Except String String) (e : String)
    (env : Env) (body : OrderClassificationRequest) (client : String) :
    (_get_order_emergency ⟨n, fin⟩).1 = (_get_order_emergency ⟨0, fin⟩).1
    ∧ (_get_order_emergency ⟨n, fin⟩).2 = WAIT_TIME_IN_SEC * n
    ∧ _get_order_emergency ⟨0, Except.error e⟩ = (Except.error e, 0)
    ∧ get_emergency_class { env with classifier := ⟨n, fin⟩ } body client
        = get_emergency_class { env with classifier := ⟨0, fin⟩ } body client := by
  refine ⟨by simp [_get_order_emergency, getOrderEmergencyRun_fst], ?_, rfl, ?_⟩
  · simp [_get_order_emergency, getOrderEmergencyRun_snd]
  · simp only [get_emergency_class, classifyBody, stageWithConfig, stageAfterDetails,
      stageClassify, stageDispatch, _get_order_emergency, getOrderEmergencyRun_fst]

/-- Claim C6: the resolver returns the user id of the first configured unit
(scanning units, then their address lists, in configured order) whose address
substring is contained case-insensitively in the order address, and `none`
when no unit matches; in particular ties (for example one unit's substring a
prefix of another's) go to the unit scanned first. -/
theorem claim_C6 (udsList : List UDS) (order_address : String) :
    _get_responsible_users_ids_by_order_address udsList order_address
      = (udsList.find? (udsMatches order_address)).map (fun u => [u.user_id]) := by
  induction udsList with
  | nil => rfl
  | cons u rest ih =>
    unfold _get_responsible_users_ids_by_order_address
    cases h : u.address_list.find? (fun a => pyContainsCI order_address a) with
    | some a =>
      have hm : udsMatches order_address u = true := by
        rw [udsMatches, ← find?_isSome_eq_any, h]; rfl
      simp [List.find?, hm]
    | none =>
      have hm : udsMatches order_address u = false := by
        rw [udsMatches, ← find?_isSome_eq_any, h]; rfl
      simp [List.find?, hm, ih]

/-- Claim C7: an order that passes the idempotency gate but is not in
`PENDING` status yields the invalid-state outcome (error flag set, the
status-gate detail as comment) and the run makes no order-status update nor
chat-post call. -/
theorem claim_C7 (env : Env) (body : OrderClassificationRequest) (client : String)
    (h1 : env.savedRecord = none) (h2 : body.orderStatusId ≠ ORDER_STATUS_PENDING) :
    (get_emergency_class env body client).1.is_error = true
    ∧ (get_emergency_class env body client).1.comment
        = some (statusGateMsg body.orderId body.orderStatusId)
    ∧ ExtCall.updateOrderStatus body.orderId ∉ (get_emergency_class env body client).2
    ∧ ExtCall.postChatMessage body.orderId ∉ (get_emergency_class env body client).2 := by
  have hb : (body.orderStatusId != ORDER_STATUS_PENDING) = true := bne_iff_ne.mpr h2
  simp [get_emergency_class, classifyBody, h1, hb]

/-- Witness for C7 at a concrete environment and request. -/
theorem claim_C7_witness :
    (get_emergency_class
        ⟨none, none, Except.error ("x"), ⟨0, Except.error ("x")⟩, [], Except.error ("x"),
          Except.error ("x")⟩
        ⟨100, 1, 123, 42, 5⟩ ("vysota")).1.is_error = true := by
  exact (claim_C7 _ _ ("vysota") rfl (by decide)).1

/-- The dispatch stage never modifies the `is_emergency` field. -/
theorem stageDispatch_is_emergency (env : Env) (body : OrderClassificationRequest)
    (useUpdating : Bool) (disabledMsg order_address : String)
    (record : OrderClassificationRecord) (calls : List ExtCall) :
    (stageDispatch env body useUpdating disabledMsg order_address record calls).1.is_emergency
      = record.is_emergency := by
  unfold stageDispatch
  cases _get_responsible_users_ids_by_order_address env.udsList order_address with
  | none => rfl
  | some ids =>
    cases useUpdating with
    | false => rfl
    | true =>
      cases env.updateStatusResult with
      | error e => rfl
      | ok resp => cases env.chatResult with
        | error e => rfl
        | ok c => rfl

/-- Claim C5: with classification enabled and the classifier returning a
label, the recorded `is_emergency` boolean is the result of comparing the
raw output, lower-cased then stripped, with the affirmative label
"аварийная" — true exactly on equality, false on any other output. -/
theorem claim_C5 (env : Env) (body : OrderClassificationRequest) (client : String)
    (cfg : OrderClassificationConfig) (od : OrderDetails) (label : String)
    (h1 : env.savedRecord = none)
    (h2 : body.orderStatusId = ORDER_STATUS_PENDING)
    (h3 : env.config = some cfg)
    (h4 : cfg.is_use_emergency_classification = true)
    (h5 : body.alertTypeId = ALERT_TYPE_NEW_ORDER)
    (h6 : env.orderDetailsResult = Except.ok od)
    (h7 : isMissingOrBlank (extractQuery od) = false)
    (h8 : isMissingOrBlank (extractAddress od) = false)
    (h9 : env.classifier.finalOutcome = Except.ok label) :
    (get_emergency_class env body client).1.is_emergency = some (pyIsAffirmative label)
    ∧ (pyIsAffirmative label = true ↔ pyStrip (pyLower label.toList) = ("аварийная").toList) := by
  have hrun : (_get_order_emergency env.classifier).1 = Except.ok label := by
    rw [_get_order_emergency, getOrderEmergencyRun_fst, h9]
  refine ⟨?_, by simp [pyIsAffirmative]⟩
  have hbody : (classifyBody env body client).1.is_emergency = some (pyIsAffirmative label) := by
    simp only [classifyBody, stageWithConfig, stageAfterDetails, stageClassify,
      h1, h2, h3, h4, h5, h6, h7, h8, hrun, bne_self_eq_false, Bool.false_and, Bool.true_and,
      Bool.and_false, Bool.and_true, if_false, if_true, Bool.false_eq_true, ite_false, ite_true]
    split
    · rw [stageDispatch_is_emergency]
    · rfl
  simp only [get_emergency_class]
  cases hx : (classifyBody env body client).2.1 with
  | none => simpa [hx] using hbody
  | some m => simpa [hx] using hbody

/-- Witness for C5 on the happy-path environment. -/
theorem claim_C5_witness :
    (get_emergency_class envW bodyW ("vysota")).1.is_emergency
        = some (pyIsAffirmative ("аварийная"))
    ∧ (pyIsAffirmative ("аварийная") = true
        ↔ pyStrip (pyLower ("аварийная").toList) = ("аварийная").toList) :=
  claim_C5 envW bodyW ("vysota") ⟨7, true, true, "prompt"⟩ odW ("аварийная")
    rfl rfl rfl rfl rfl rfl (by decide) (by decide) rfl

/-- Claim C9: classification enabled, order-updating disabled, affirmative
label, and a responsible unit matching the order address: the unit is
resolved and its id recorded, the skipped-by-config marker is recorded as
both the update request and the update response, and neither the
order-status update nor the chat post is called; the run succeeds. -/
theorem claim_C9 (env : Env) (body : OrderClassificationRequest) (client : String)
    (cfg : OrderClassificationConfig) (od : OrderDetails) (label addr : String) (ids : List Nat)
    (h1 : env.savedRecord = none)
    (h2 : body.orderStatusId = ORDER_STATUS_PENDING)
    (h3 : env.config = some cfg)
    (h4 : cfg.is_use_emergency_classification = true)
    (hupd : cfg.is_use_order_updating = false)
    (h5 : body.alertTypeId = ALERT_TYPE_NEW_ORDER)
    (h6 : env.orderDetailsResult = Except.ok od)
    (h7 : isMissingOrBlank (extractQuery od) = false)
    (h8 : isMissingOrBlank (extractAddress od) = false)
    (h9 : env.classifier.finalOutcome = Except.ok label)
    (haff : pyIsAffirmative label = true)
    (h10 : extractAddress od = some addr)
    (h11 : _get_responsible_users_ids_by_order_address env.udsList addr = some ids) :
    (get_emergency_class env body client).1.uds_id = some (pyStrOptIntList (some ids))
    ∧ (get_emergency_class env body client).1.order_update_request
        = some (UpdatePayload.skipped (disabledFieldMsg cfg.user_id))
    ∧ (get_emergency_class env body client).1.order_update_response
        = some (UpdatePayload.skipped (disabledFieldMsg cfg.user_id))
    ∧ ExtCall.updateOrderStatus body.orderId ∉ (get_emergency_class env body client).2
    ∧ ExtCall.postChatMessage body.orderId ∉ (get_emergency_class env body client).2
    ∧ (get_emergency_class env body client).1.is_error = false := by
  have hrun : (_get_order_emergency env.classifier).1 = Except.ok label := by
    rw [_get_order_emergency, getOrderEmergencyRun_fst, h9]
  have h8a : isMissingOrBlank (some addr) = false := by rw [← h10]; exact h8
  simp [get_emergency_class, classifyBody, stageWithConfig, stageAfterDetails, stageClassify,
    stageDispatch, h1, h2, h3, h4, hupd, h5, h6, h7, h8, h8a, hrun, haff, h10, h11,
    bne_self_eq_false]

/-- Witness for C9: happy path with order-updating switched off. -/
theorem claim_C9_witness :
    (get_emergency_class { envW with config := some ⟨7, true, false, "prompt"⟩ } bodyW
        ("vysota")).1.order_update_request
      = some (UpdatePayload.skipped (disabledFieldMsg 7))
    ∧ ExtCall.updateOrderStatus 42
        ∉ (get_emergency_class { envW with config := some ⟨7, true, false, "prompt"⟩ } bodyW
            ("vysota")).2 := by
  have h := claim_C9 { envW with config := some ⟨7, true, false, "prompt"⟩ } bodyW ("vysota")
    ⟨7, true, false, "prompt"⟩ odW ("аварийная") ("ул. Ленина 5") ([7])
    rfl rfl rfl rfl rfl rfl rfl (by decide) (by decide) rfl (by decide) (by decide) (by decide)
  exact ⟨h.2.1, h.2.2.2.1⟩

/-- Claim C10: with classification and updating enabled, an emergency order,
a resolved unit, a successful status update but a failing chat post, the
persisted record carries the error flag (and the chat failure as comment)
while `order_update_request` and `order_update_response` stay unset, even
though the status-update call was actually made. -/
theorem claim_C10 (env : Env) (body : OrderClassificationRequest) (client : String)
    (cfg : OrderClassificationConfig) (od : OrderDetails) (label addr resp e : String)
    (ids : List Nat)
    (h1 : env.savedRecord = none)
    (h2 : body.orderStatusId = ORDER_STATUS_PENDING)
    (h3 : env.config = some cfg)
    (h4 : cfg.is_use_emergency_classification = true)
    (hupd : cfg.is_use_order_updating = true)
    (h5 : body.alertTypeId = ALERT_TYPE_NEW_ORDER)
    (h6 : env.orderDetailsResult = Except.ok od)
    (h7 : isMissingOrBlank (extractQuery od) = false)
    (h8 : isMissingOrBlank (extractAddress od) = false)
    (h9 : env.classifier.finalOutcome = Except.ok label)
    (haff : pyIsAffirmative label = true)
    (h10 : extractAddress od = some addr)
    (h11 : _get_responsible_users_ids_by_order_address env.udsList addr = some ids)
    (h12 : env.updateStatusResult = Except.ok resp)
    (h13 : env.chatResult = Except.error e) :
    (get_emergency_class env body client).1.is_error = true
    ∧ (get_emergency_class env body client).1.comment = some e
    ∧ (get_emergency_class env body client).1.order_update_request = none
    ∧ (get_emergency_class env body client).1.order_update_response = none
    ∧ ExtCall.updateOrderStatus body.orderId ∈ (get_emergency_class env body client).2 := by
  have hrun : (_get_order_emergency env.classifier).1 = Except.ok label := by
    rw [_get_order_emergency, getOrderEmergencyRun_fst, h9]
  have h8a : isMissingOrBlank (some addr) = false := by rw [← h10]; exact h8
  simp [get_emergency_class, classifyBody, stageWithConfig, stageAfterDetails, stageClassify,
    stageDispatch, h1, h2, h3, h4, hupd, h5, h6, h7, h8, h8a, hrun, haff, h10, h11, h12, h13,
    bne_self_eq_false]

/-- Witness for C10: happy path but the chat post fails. -/
theorem claim_C10_witness :
    (get_emergency_class { envW with chatResult := Except.error ("chat down") } bodyW
        ("vysota")).1.is_error = true
    ∧ (get_emergency_class { envW with chatResult := Except.error ("chat down") } bodyW
        ("vysota")).1.order_update_request = none
    ∧ ExtCall.updateOrderStatus 42
        ∈ (get_emergency_class { envW with chatResult := Except.error ("chat down") } bodyW
            ("vysota")).2 := by
  have h := claim_C10 { envW with chatResult := Except.error ("chat down") } bodyW ("vysota")
    ⟨7, true, true, "prompt"⟩ odW ("аварийная") ("ул. Ленина 5") ("resp") ("chat down") ([7])
    rfl rfl rfl rfl rfl rfl rfl (by decide) (by decide) rfl rfl (by decide) (by decide) rfl rfl
  exact ⟨h.1, h.2.2.1, h.2.2.2.2⟩

/-- Claim C8, amended: with emergency classification disabled in the tenant
config, `is_emergency` is never set and no dispatch update call is made, on
every run; the skipped-by-config marker is recorded in `order_emergency`
provided the run reaches the classification stage (gates pass and the
order-details fetch succeeds) — a failing fetch leaves the field unset. -/
theorem claim_C8_amended (env : Env) (body : OrderClassificationRequest) (client : String)
    (cfg : OrderClassificationConfig)
    (hc : env.config = some cfg)
    (hflag : cfg.is_use_emergency_classification = false) :
    ((get_emergency_class env body client).1.is_emergency = none
      ∧ ExtCall.updateOrderStatus body.orderId ∉ (get_emergency_class env body client).2
      ∧ ExtCall.postChatMessage body.orderId ∉ (get_emergency_class env body client).2)
    ∧ (env.savedRecord = none → body.orderStatusId = ORDER_STATUS_PENDING →
        ∀ od, env.orderDetailsResult = Except.ok od →
          (get_emergency_class env body client).1.order_emergency
              = some (disabledFieldMsg cfg.user_id)
            ∧ (get_emergency_class env body client).1.is_error = false) := by
  constructor
  · cases hs : env.savedRecord with
    | some saved => simp [get_emergency_class, classifyBody, hs]
    | none =>
      by_cases hb : (body.orderStatusId != ORDER_STATUS_PENDING) = true
      · simp [get_emergency_class, classifyBody, hs, hb]
      · cases hdet : env.orderDetailsResult with
        | error e =>
          simp [get_emergency_class, classifyBody, stageWithConfig, stageAfterDetails,
            stageClassify, hs, hb, hc, hflag, hdet]
        | ok od =>
          simp [get_emergency_class, classifyBody, stageWithConfig, stageAfterDetails,
            stageClassify, hs, hb, hc, hflag, hdet]
  · intro hs hp od hdet
    simp [get_emergency_class, classifyBody, stageWithConfig, stageAfterDetails, stageClassify,
      hs, hp, hc, hflag, hdet, bne_self_eq_false]

/-- Counterexample for C8 as stated: on a run with classification disabled
whose order-details fetch fails, the `order_emergency` field stays unset
instead of holding the skipped-by-config marker. -/
theorem claim_C8_counterexample :
    envC8.config = some ⟨7, false, true, "p"⟩
    ∧ (get_emergency_class envC8 bodyW ("vysota")).1.order_emergency = none
    ∧ (get_emergency_class envC8 bodyW ("vysota")).1.order_emergency
        ≠ some (disabledFieldMsg 7)
    ∧ (get_emergency_class envC8 bodyW ("vysota")).1.is_error = true := by
  refine ⟨rfl, rfl, ?_, rfl⟩
  decide

/-- Witness for the amended C8 on a run whose fetch succeeds. -/
theorem claim_C8_witness :
    (get_emergency_class { envW with config := some ⟨7, false, true, "p"⟩ } bodyW
        ("vysota")).1.is_emergency = none
    ∧ (get_emergency_class { envW with config := some ⟨7, false, true, "p"⟩ } bodyW
        ("vysota")).1.order_emergency = some (disabledFieldMsg 7) := by
  have h := claim_C8_amended { envW with config := some ⟨7, false, true, "p"⟩ } bodyW ("vysota")
    ⟨7, false, true, "p"⟩ rfl rfl
  exact ⟨h.1.1, (h.2 rfl rfl odW rfl).1⟩

/-- The dispatch stage adds no save call. -/
theorem stageDispatch_count_save (env : Env) (body : OrderClassificationRequest)
    (useUpdating : Bool) (disabledMsg order_address : String)
    (record : OrderClassificationRecord) (calls : List ExtCall) (oid : Nat) :
    ((stageDispatch env body useUpdating disabledMsg order_address record calls).2.2).count
        (ExtCall.saveRecord oid)
      = calls.count (ExtCall.saveRecord oid) := by
  unfold stageDispatch
  cases _get_responsible_users_ids_by_order_address env.udsList order_address with
  | none => rfl
  | some ids =>
    cases useUpdating with
    | false => rfl
    | true =>
      cases env.updateStatusResult with
      | error e => simp [List.count_append, List.count_cons]
      | ok resp =>
        cases env.chatResult with
        | error e => simp [List.count_append, List.count_cons]
        | ok c => simp [List.count_append, List.count_cons]

/-- The classification stage adds no save call. -/
theorem stageClassify_count_save (env : Env) (body : OrderClassificationRequest)
    (uc uu : Bool) (disabledMsg : String) (oq oa : Option String)
    (record : OrderClassificationRecord) (calls : List ExtCall) (oid : Nat) :
    ((stageClassify env body uc uu disabledMsg oq oa record calls).2.2).count
        (ExtCall.saveRecord oid)
      = calls.count (ExtCall.saveRecord oid) := by
  cases uc with
  | false => rfl
  | true =>
    cases h : (_get_order_emergency env.classifier).1 with
    | error e => simp [stageClassify, h, List.count_append, List.count_cons]
    | ok label =>
      by_cases haff : pyIsAffirmative label = true
      · simp [stageClassify, h, haff, stageDispatch_count_save,
          List.count_append, List.count_cons]
      · simp [stageClassify, h, haff, List.count_append, List.count_cons]

/-- The post-fetch stage adds no save call. -/
theorem stageAfterDetails_count_save (env : Env) (body : OrderClassificationRequest)
    (uc uu : Bool) (disabledMsg : String) (od : OrderDetails)
    (record : OrderClassificationRecord) (calls : List ExtCall) (oid : Nat) :
    ((stageAfterDetails env body uc uu disabledMsg od record calls).2.2).count
        (ExtCall.saveRecord oid)
      = calls.count (ExtCall.saveRecord oid) := by
  by_cases h1 : (uc && isMissingOrBlank (extractQuery od)) = true
  · simp [stageAfterDetails, h1]
  · by_cases h2 : (uc && isMissingOrBlank (extractAddress od)) = true
    · simp [stageAfterDetails, h1, h2]
    · simp [stageAfterDetails, h1, h2, stageClassify_count_save]

/-- The config stage adds no save call. -/
theorem stageWithConfig_count_save (env : Env) (body : OrderClassificationRequest)
    (client : String) (cfg : OrderClassificationConfig)
    (record : OrderClassificationRecord) (calls : List ExtCall) (oid : Nat) :
    ((stageWithConfig env body client cfg record calls).2.2).count (ExtCall.saveRecord oid)
      = calls.count (ExtCall.saveRecord oid) := by
  by_cases h1 : (cfg.is_use_emergency_classification
      && (body.alertTypeId != ALERT_TYPE_NEW_ORDER)) = true
  · simp [stageWithConfig, h1]
  · cases h2 : env.orderDetailsResult with
    | error e => simp [stageWithConfig, h1, h2, List.count_append, List.count_cons]
    | ok od =>
      simp [stageWithConfig, h1, h2, stageAfterDetails_count_save,
        List.count_append, List.count_cons]

/-- The `try` block itself never calls the history store's save. -/
theorem classifyBody_count_save (env : Env) (body : OrderClassificationRequest)
    (client : String) (oid : Nat) :
    ((classifyBody env body client).2.2).count (ExtCall.saveRecord oid) = 0 := by
  cases h1 : env.savedRecord with
  | some saved => simp [classifyBody, h1]
  | none =>
    by_cases h2 : (body.orderStatusId != ORDER_STATUS_PENDING) = true
    · simp [classifyBody, h1, h2]
    · cases h3 : env.config with
      | none => simp [classifyBody, h1, h2, h3, List.count_append, List.count_cons]
      | some cfg =>
        simp [classifyBody, h1, h2, h3, stageWithConfig_count_save,
          List.count_append, List.count_cons]

/-- Claim C2: the orchestrator never raises: every run persists the
accumulated record via the store's save exactly once and returns it, and any
failure raised inside the pipeline sets the record's error flag and copies
the failure's message into its comment. -/
theorem claim_C2 :
    (∀ (env : Env) (body : OrderClassificationRequest) (client : String),
      ((get_emergency_class env body client).2).count (ExtCall.saveRecord body.orderId) = 1
      ∧ (∀ m, (classifyBody env body client).2.1 = some m →
          (get_emergency_class env body client).1.is_error = true
          ∧ (get_emergency_class env body client).1.comment = some m))
    ∧ (∀ (env : Env) (body : OrderClassificationRequest) (client : String)
        (store : List StoreEntry),
        (classifyWithStore env body client store).2.1
          = store ++ [⟨body.orderId, client, store.length,
              (classifyWithStore env body client store).1⟩]) := by
  refine ⟨fun env body client => ⟨?_, fun m hm => ?_⟩, fun env body client store => rfl⟩
  · have h0 := classifyBody_count_save env body client body.orderId
    simp [get_emergency_class, List.count_append, h0]
  · simp [get_emergency_class, hm]

/-- Witness for C2 on a failing (conflict) run. -/
theorem claim_C2_witness :
    ((get_emergency_class { envW with savedRecord := some ⟨0⟩ } bodyW ("vysota")).2).count
        (ExtCall.saveRecord 42) = 1
    ∧ (get_emergency_class { envW with savedRecord := some ⟨0⟩ } bodyW
        ("vysota")).1.is_error = true := by
  have h := claim_C2.1 { envW with savedRecord := some ⟨0⟩ } bodyW ("vysota")
  exact ⟨h.1, (h.2 (conflictMsg 42 0) (by decide)).1⟩

/-- Claim C1, amended: when a history record already exists for the order and
tenant, a second `classify` run yields the conflict outcome (error flag set,
conflict detail as comment naming the stored record) and does not re-invoke
the classifier; however the orchestrator does not short-circuit persistence:
the save still runs and appends the new (error) record to the store. -/
theorem claim_C1_amended (env : Env) (body : OrderClassificationRequest) (client : String)
    (store : List StoreEntry) (entry : StoreEntry)
    (hfind : findByOrderId store body.orderId client = some entry) :
    (classifyWithStore env body client store).1.is_error = true
    ∧ (classifyWithStore env body client store).1.comment
        = some (conflictMsg body.orderId entry.entry_id)
    ∧ ((classifyWithStore env body client store).2.2).countP isClassifierCall = 0
    ∧ (classifyWithStore env body client store).2.1
        = store ++ [⟨body.orderId, client, store.length,
            (classifyWithStore env body client store).1⟩] := by
  refine ⟨?_, ?_, ?_, rfl⟩
  · simp [classifyWithStore, get_emergency_class, classifyBody, hfind]
  · simp [classifyWithStore, get_emergency_class, classifyBody, hfind]
  · simp [classifyWithStore, get_emergency_class, classifyBody, hfind,
      List.countP_append, List.countP_cons, isClassifierCall]

/-- Counterexample for C1 as stated: a second run for an already-classified
order does return the conflict outcome and never re-invokes the classifier,
but the idempotency gate does not short-circuit persistence — the store ends
up with a second record for the (order id, tenant) pair. -/
theorem claim_C1_counterexample :
    findByOrderId storeC1 42 ("vysota") ≠ none
    ∧ (classifyWithStore envW bodyW ("vysota") storeC1).1.comment = some (conflictMsg 42 0)
    ∧ ((classifyWithStore envW bodyW ("vysota") storeC1).2.2).countP isClassifierCall = 0
    ∧ ((classifyWithStore envW bodyW ("vysota") storeC1).2.1.filter
        (fun e => e.order_id == 42 && e.client == ("vysota"))).length = 2 := by
  decide

/-- Witness for the amended C1 at the concrete store. -/
theorem claim_C1_witness :
    (classifyWithStore envW bodyW ("vysota") storeC1).1.is_error = true
    ∧ (classifyWithStore envW bodyW ("vysota") storeC1).2.1.length = 2 := by
  have h := claim_C1_amended envW bodyW ("vysota") storeC1 ⟨42, "vysota", 0, recW⟩ (by decide)
  refine ⟨h.1, ?_⟩
  rw [h.2.2.2]
  simp [storeC1]

/-- A whitespace head kills any `http\S+` match. -/
theorem startsHttp_ws_head {c : Char} (l : List Char) (h : isWs c = true) :
    startsHttp (c :: l) = false := by
  have hc : (c == 'h') = false := by
    cases hch : c == 'h' with
    | false => rfl
    | true =>
      have hceq : c = 'h' := eq_of_beq hch
      subst hceq
      exact absurd h (by decide)
  rcases l with _ | ⟨c1, _ | ⟨c2, _ | ⟨c3, _ | ⟨c4, t⟩⟩⟩⟩
  · rfl
  · rfl
  · rfl
  · rfl
  · simp [startsHttp, hc]

/-- A match at the head of the output forces the same match at the head of
the input, because the five matched characters are all non-whitespace. -/
theorem wsle_startsHttp {o i : List Char} (hle : WsLe o i) (h : startsHttp o = true) :
    startsHttp i = true := by
  rcases o with _ | ⟨c0, _ | ⟨c1, _ | ⟨c2, _ | ⟨c3, _ | ⟨c4, t⟩⟩⟩⟩⟩ <;>
    simp [startsHttp] at h
  obtain ⟨⟨⟨⟨h0, h1⟩, h2⟩, h3⟩, h4⟩ := h
  subst h0; subst h1; subst h2; subst h3
  cases hle with
  | cons _ hle1 =>
    cases hle1 with
    | cons _ hle2 =>
      cases hle2 with
      | cons _ hle3 =>
        cases hle3 with
        | cons _ hle4 =>
          cases hle4 with
          | cons _ hle5 => simp [startsHttp, h4]
          | ws _ hws => exact absurd hws (by simp [h4])
        | ws _ hws => exact absurd hws (by decide)
      | ws _ hws => exact absurd hws (by decide)
    | ws _ hws => exact absurd hws (by decide)
  | ws _ hws => exact absurd hws (by decide)

/-- The URL-sub pass only rewrites by dropping characters after emitting a
space: its output is `WsLe` the input. -/
theorem wsle_subHttpAux : ∀ s : List Char, WsLe (subHttpAux false s) s := by
  intro s
  induction s with
  | nil => exact WsLe.nil
  | cons c rest ih =>
    by_cases hm : startsHttp (c :: rest) = true
    · simp only [subHttpAux, hm, if_true]
      exact WsLe.ws _ (by decide)
    · simp only [subHttpAux, hm, if_false]
      exact WsLe.cons c ih

/-- The whitespace-collapse pass likewise only emits a space or copies:
its output is `WsLe` the input. -/
theorem wsle_collapseWsAux : ∀ s : List Char, WsLe (collapseWsAux false s) s := by
  intro s
  induction s with
  | nil => exact WsLe.nil
  | cons c rest ih =>
    by_cases hw : isWs c = true
    · simp only [collapseWsAux, hw, if_true, if_false]
      exact WsLe.ws _ (by decide)
    · simp only [collapseWsAux, hw, if_false]
      exact WsLe.cons c ih

/-- The output of the URL-sub pass contains no `http\S+` match. -/
theorem hasHttpMatch_subHttpAux : ∀ (s : List Char) (b : Bool),
    hasHttpMatch (subHttpAux b s) = false := by
  intro s
  induction s with
  | nil => intro b; cases b <;> rfl
  | cons c rest ih =>
    intro b
    cases b with
    | true =>
      by_cases hw : isWs c = true
      · simp [subHttpAux, hw, hasHttpMatch, ih, startsHttp_ws_head _ hw]
      · simp [subHttpAux, hw, ih]
    | false =>
      by_cases hm : startsHttp (c :: rest) = true
      · have h1 : startsHttp (' ' :: subHttpAux true rest) = false :=
          startsHttp_ws_head _ (by decide)
        simp [subHttpAux, hm, hasHttpMatch, h1, ih]
      · have hb : startsHttp (c :: subHttpAux false rest) = false := by
          cases hx : startsHttp (c :: subHttpAux false rest) with
          | false => rfl
          | true => exact absurd (wsle_startsHttp (WsLe.cons c (wsle_subHttpAux rest)) hx) hm
        simp [subHttpAux, hm, hasHttpMatch, hb, ih]

/-- Whitespace collapsing cannot create an `http\S+` match. -/
theorem hasHttpMatch_collapseWsAux : ∀ s : List Char, hasHttpMatch s = false →
    ∀ b, hasHttpMatch (collapseWsAux b s) = false := by
  intro s
  induction s with
  | nil => intro _ b; cases b <;> rfl
  | cons c rest ih =>
    intro h b
    simp only [hasHttpMatch, Bool.or_eq_false_iff] at h
    by_cases hw : isWs c = true
    · cases b with
      | true => simpa [collapseWsAux, hw] using ih h.2 true
      | false =>
        have h1 : startsHttp (' ' :: collapseWsAux true rest) = false :=
          startsHttp_ws_head _ (by decide)
        simp [collapseWsAux, hw, hasHttpMatch, h1, ih h.2]
    · have hb : startsHttp (c :: collapseWsAux false rest) = false := by
        cases hx : startsHttp (c :: collapseWsAux false rest) with
        | false => rfl
        | true =>
          have := wsle_startsHttp (WsLe.cons c (wsle_collapseWsAux rest)) hx
          simp [h.1] at this
      cases b with
      | true => simp [collapseWsAux, hw, hasHttpMatch, hb, ih h.2]
      | false => simp [collapseWsAux, hw, hasHttpMatch, hb, ih h.2]

/-- The URL-sub pass is the identity on match-free text. -/
theorem subHttpAux_id : ∀ s : List Char, hasHttpMatch s = false → subHttpAux false s = s := by
  intro s
  induction s with
  | nil => intro _; rfl
  | cons c rest ih =>
    intro h
    simp only [hasHttpMatch, Bool.or_eq_false_iff] at h
    simp [subHttpAux, h.1, ih h.2]

/-- Whitespace collapsing is idempotent. -/
theorem collapseWsAux_idem : ∀ (s : List Char) (b : Bool),
    collapseWsAux b (collapseWsAux b s) = collapseWsAux b s := by
  intro s
  induction s with
  | nil => intro b; cases b <;> rfl
  | cons c rest ih =>
    intro b
    have hsp : isWs ' ' = true := by decide
    by_cases hw : isWs c = true
    · cases b with
      | true => simp [collapseWsAux, hw, ih]
      | false => simp [collapseWsAux, hw, hsp, ih]
    · simp [collapseWsAux, hw, ih]

/-- Every whitespace character in collapsed output is a plain space. -/
theorem mem_collapseWsAux_ws : ∀ (s : List Char) (b : Bool) (c : Char),
    c ∈ collapseWsAux b s → isWs c = true → c = ' ' := by
  intro s
  induction s with
  | nil => intro b c hc _; cases b <;> simp [collapseWsAux] at hc
  | cons d rest ih =>
    intro b c hc hw
    by_cases hd : isWs d = true
    · cases b with
      | true =>
        simp only [collapseWsAux, hd, if_true] at hc
        exact ih true c hc hw
      | false =>
        simp only [collapseWsAux, hd, if_true, if_false] at hc
        rcases List.mem_cons.mp hc with rfl | hc2
        · rfl
        · exact ih true c hc2 hw
    · simp only [collapseWsAux, hd, if_false] at hc
      rcases List.mem_cons.mp hc with rfl | hc2
      · exact absurd hw hd
      · exact ih false c hc2 hw

/-- `replace("\n", " ")` is the identity on newline-free text. -/
theorem mapNl_id : ∀ s : List Char, (∀ c ∈ s, c ≠ '\n') → mapNl s = s := by
  intro s
  induction s with
  | nil => intro _; rfl
  | cons c rest ih =>
    intro h
    have hc : c ≠ '\n' := h c (by simp)
    have ih2 := ih (fun x hx => h x (by simp [hx]))
    simpa [mapNl, hc] using ih2

/-- `str.replace` is the identity when the pattern occurs nowhere. -/
theorem replaceAllF_id (pat rep : List Char) : ∀ (n : Nat) (s : List Char),
    listInfixB pat s = false → replaceAllF pat rep n s = s := by
  intro n
  induction n with
  | zero => intro s _; rfl
  | succ n ih =>
    intro s h
    cases s with
    | nil => rfl
    | cons c rest =>
      have hh : pat.isPrefixOf (c :: rest) = false ∧ listInfixB pat rest = false := by
        simpa [listInfixB, Bool.or_eq_false_iff] using h
      simp [replaceAllF, hh.1, ih rest hh.2]

/-- The normalizer is idempotent on every input whose normal form does not
contain the photo placeholder phrase. -/
theorem normalizeL_idem (x : List Char) (h : listInfixB PHRASE (normalizeL x) = false) :
    normalizeL (normalizeL x) = normalizeL x := by
  have hmap : mapNl (normalizeL x) = normalizeL x := by
    apply mapNl_id
    intro c hc hcn
    subst hcn
    have h2 := mem_collapseWsAux_ws _ false '\n' hc (by decide)
    exact absurd h2 (by decide)
  have hrep : replaceAll PHRASE ([' ']) (normalizeL x) = normalizeL x :=
    replaceAllF_id PHRASE ([' ']) _ _ h
  have hsub : subHttp (normalizeL x) = normalizeL x :=
    subHttpAux_id _ (hasHttpMatch_collapseWsAux _ (hasHttpMatch_subHttpAux _ false) false)
  have hcol : collapseWs (normalizeL x) = normalizeL x := collapseWsAux_idem _ false
  calc normalizeL (normalizeL x)
      = collapseWs (subHttp (replaceAll PHRASE ([' ']) (mapNl (normalizeL x)))) := rfl
    _ = collapseWs (subHttp (replaceAll PHRASE ([' ']) (normalizeL x))) := by rw [hmap]
    _ = collapseWs (subHttp (normalizeL x)) := by rw [hrep]
    _ = collapseWs (normalizeL x) := by rw [hsub]
    _ = normalizeL x := hcol

/-- Claim C3, amended: the normalizer applies its four steps in the fixed
source order and is idempotent on every input string whose normalized form
does not contain the photo placeholder phrase; full idempotence fails, since
whitespace collapsing can recreate the phrase (see the counterexample). -/
theorem claim_C3_amended (x : String)
    (h : listInfixB PHRASE (normalizeStr x).toList = false) :
    normalizeStr (normalizeStr x) = normalizeStr x :=
  congrArg List.asString (normalizeL_idem x.toList h)

/-- Counterexample for C3 as stated: on `"Прикрепите\tфото:"` the first pass
only turns the tab into a space, which recreates the placeholder phrase; the
second pass then strips it, so `normalize` is not idempotent. -/
theorem claim_C3_counterexample :
    normalizeStr (normalizeStr ("Прикрепите\tфото:")) ≠ normalizeStr ("Прикрепите\tфото:")
    ∧ normalizeStr ("Прикрепите\tфото:") = "Прикрепите фото:"
    ∧ normalizeStr ("Прикрепите фото:") = " " := by
  refine ⟨by decide, by decide, by decide⟩

/-- Witness for the amended C3 on an ordinary input. -/
theorem claim_C3_witness :
    listInfixB PHRASE (normalizeStr ("Труба\nтечет,  срочно!")).toList = false
    ∧ normalizeStr (normalizeStr ("Труба\nтечет,  срочно!"))
        = normalizeStr ("Труба\nтечет,  срочно!") :=
  ⟨by decide, claim_C3_amended ("Труба\nтечет,  срочно!") (by decide)⟩
